import Mathlib

/-!
Verification development for the `scorekeeper` package
(src/venv/Lib/site-packages/scorekeeper/scorekeeper.py).

Shallow embedding conventions:
* The shelve database is modelled as `Store : String → Option ScoreRecord`;
  `shelve` keys are the class name `type(self).__name__`.
* Wall-clock timestamps (`datetime.datetime.now()`) are modelled as whole
  non-negative seconds (`Nat`); a single `now` parameter stands for the clock
  during one call (the clock is not read twice at observably different values
  within one call in any claim considered).
* `timedelta.seconds` is the seconds-of-day component of the elapsed time:
  for a non-negative elapsed span it equals the elapsed seconds modulo 86400
  (whole days are discarded); this is what `_seconds_since_last_score` returns.
* Scores are `Int` (the code never clamps after `self.score += score`, so a
  negative stored score is representable and, as proved below, reachable).
* Python truthiness: an `int` argument is falsy iff it is `0` and `None` is
  falsy; an explicit falsy argument therefore falls back to the default in
  `if not threshold: ...`, `if not decay: ...`, `if not callback: ...`.
* A callback is modelled by its behaviour when invoked: it either raises an
  exception with a message or returns a value (callbacks are modelled as pure;
  they do not mutate the scorekeeper's state).
* Store I/O operations performed by a call are recorded in an `Event` trace,
  in execution order, together with the callback invocation.
-/

namespace Scorekeeper

/-- One persisted shelve record: `{"datetime": ..., "score": ...}`
(`Scorekeeper._set_score` always stores both fields). -/
structure ScoreRecord where
  datetime : Nat
  score : Int
deriving DecidableEq, Repr

/-- The shelve database: class name → record (absent if never written). -/
def Store : Type := String → Option ScoreRecord

/-- Writing `db[key] = record` into the shelve database. -/
def Store.write (st : Store) (key : String) (r : ScoreRecord) : Store :=
  fun k => if k = key then some r else st k

/-- The shelve database of a fresh installation: no record was ever written. -/
def emptyStore : Store := fun _ => none

/-- A shelve database holding exactly one record. -/
def singleStore (key : String) (r : ScoreRecord) : Store :=
  fun k => if k = key then some r else none

/-- `Scorekeeper._get_score`: read the record for `key`; a missing record
yields `(None, 0)` (`result.get("datetime")`, `result.get("score", 0)`). -/
def get_score (st : Store) (key : String) : Option Nat × Int :=
  match st key with
  | none => (none, 0)
  | some r => (some r.datetime, r.score)

/-- `Scorekeeper._set_score`: persist the current score with the current
wall-clock timestamp. -/
def set_score (st : Store) (key : String) (now : Nat) (s : Int) : Store :=
  st.write key ⟨now, s⟩

/-- `Scorekeeper._seconds_since_last_score`: `0` if no timestamp was ever
persisted, otherwise `(datetime.now() - last_time).seconds`, i.e. the
seconds-of-day component of the elapsed time — elapsed seconds modulo 86400. -/
def seconds_since_last_score (st : Store) (key : String) (now : Nat) : Nat :=
  match (get_score st key).1 with
  | none => 0
  | some last => (now - last) % 86400

/-- The clamped subtraction performed by `Scorekeeper._decay`:
`self.score = max(0, self.score - int(time / rate))`.  `time` and `rate` are
non-negative, so Python's `int(time / rate)` is floor division. -/
def decay_step (s : Int) (elapsed rate : Nat) : Int :=
  max 0 (s - Int.ofNat (elapsed / rate))

/-- Per-call configuration defaults: the class attributes
`default_threshold` / `default_decay` of the `Scorekeeper` (sub)class used.
The base class has `default_threshold = 100`, `default_decay = None`. -/
structure Config where
  default_threshold : Int
  default_decay : Option Nat
deriving DecidableEq, Repr

/-- The base `Scorekeeper` class attributes: `default_threshold = 100`,
`default_decay = None`. -/
def baseConfig : Config := ⟨100, none⟩

/-- Behaviour of a callback when invoked: raise an exception carrying a
message, or return a value. -/
inductive CbResult where
  | raises (msg : String)
  | returns (v : Int)
deriving DecidableEq, Repr

/-- `Scorekeeper.default_callback`: `raise ScoreExceededError("Score has been exceeded!")`. -/
def default_callback : CbResult := .raises "Score has been exceeded!"

/-- Whether a callback returns normally when invoked. -/
def CbResult.isReturns : CbResult → Bool
  | .returns _ => true
  | .raises _ => false

/-- `if not threshold: threshold = self.default_threshold` — an explicit `0`
is falsy in Python and falls back to the class default, as does `None`. -/
def resolveThreshold (cfg : Config) (t : Option Int) : Int :=
  match t with
  | none => cfg.default_threshold
  | some v => if v = 0 then cfg.default_threshold else v

/-- `if not decay: decay = self.default_decay` — an explicit `0` is falsy and
falls back to the class default, as does `None`. -/
def resolveDecay (cfg : Config) (d : Option Nat) : Option Nat :=
  match d with
  | none => cfg.default_decay
  | some v => if v = 0 then cfg.default_decay else some v

/-- `if not callback: callback = self.default_callback` (a function object is
always truthy, so only `None` falls back). -/
def resolveCallback (c : Option CbResult) : CbResult :=
  c.getD default_callback

/-- `if decay:` — truthiness of the resolved decay value (`None` and `0` are
falsy). -/
def truthyNat : Option Nat → Bool
  | none => false
  | some n => n != 0

/-- The score after the optional decay step of `__call__`
(`self.score = self._get_score()[1]`, then `if decay: self._decay(decay)`).
This is the value the new points are added to. -/
def post_decay (cfg : Config) (key : String) (st : Store) (now : Nat)
    (decay : Option Nat) : Int :=
  let s0 := (get_score st key).2
  match resolveDecay cfg decay with
  | none => s0
  | some r =>
      if r ≠ 0 then decay_step s0 (seconds_since_last_score st key now) r
      else s0

/-- The cumulative post-decay, post-addition score of `__call__`
(`self.score += score`), the value compared against the threshold. -/
def pre_reset (cfg : Config) (key : String) (st : Store) (now : Nat)
    (points : Int) (decay : Option Nat) : Int :=
  post_decay cfg key st now decay + points

/-- An observable step of one `__call__`: a shelve read (`_get_score`),
a shelve write (`_set_score`, with the record written), or the invocation of
the resolved callback. -/
inductive Event where
  | read
  | write (r : ScoreRecord)
  | callback
deriving DecidableEq, Repr

/-- Whether an event is a store read. -/
def Event.isRead : Event → Bool
  | .read => true
  | _ => false

/-- Whether an event is a store write. -/
def Event.isWrite : Event → Bool
  | .write _ => true
  | _ => false

/-- Whether an event is a callback invocation. -/
def Event.isCallback : Event → Bool
  | .callback => true
  | _ => false

/-- Whether an event is a write of a non-negative score (vacuously true for
non-write events). -/
def Event.nonnegWrite : Event → Bool
  | .write r => decide (0 ≤ r.score)
  | _ => true

/-- How control leaves `__call__`: a normal return (of the captured callback
result, or `None` when the threshold was not exceeded), or a propagating
exception raised by the callback. -/
inductive Outcome where
  | ret (v : Option Int)
  | raised (msg : String)
deriving DecidableEq, Repr

/-- Whether an outcome is a normal return of an actual value (not `None`). -/
def Outcome.isSomeRet : Outcome → Bool
  | .ret (some _) => true
  | _ => false

/-- Everything observable about one `__call__`: how it ended, the in-memory
`self.score` when control left it (also when an exception propagated), the
final shelve database, and the ordered trace of store I/O and callback
invocation. -/
structure ApplyResult where
  outcome : Outcome
  score : Int
  store : Store
  events : List Event

/-- `Scorekeeper.__call__(score, threshold=None, decay=None, callback=None)`,
for the accumulator class with attributes `cfg` and name `key` (the shelve
key is `type(self).__name__`).  Steps, in source order:
1. resolve `threshold`, `decay`, `callback` by Python truthiness;
2. `self.score = self._get_score()[1]` — one store read;
3. `if decay: self._decay(decay)` — `_decay` calls
   `_seconds_since_last_score`, which performs a second store read;
4. `self.score += score`;
5. `if self.score > threshold: self.reset_score(); return_value = callback()`
   — `reset_score` sets the score to `0` and persists it *before* the
   callback runs; if the callback raises, the exception propagates and the
   final `_set_score` of step 6 is never reached;
6. `self._set_score()` — persist the final score with the current timestamp;
7. return `return_value`. -/
def call (cfg : Config) (key : String) (st : Store) (now : Nat) (points : Int)
    (threshold : Option Int) (decay : Option Nat) (callback : Option CbResult) :
    ApplyResult :=
  let th := resolveThreshold cfg threshold
  let dk := resolveDecay cfg decay
  let cb := resolveCallback callback
  let s2 := pre_reset cfg key st now points decay
  let readEvents := if truthyNat dk then [Event.read, Event.read] else [Event.read]
  if s2 > th then
    let st1 := set_score st key now 0
    match cb with
    | .raises m =>
        ⟨.raised m, 0, st1, readEvents ++ [Event.write ⟨now, 0⟩, Event.callback]⟩
    | .returns v =>
        ⟨.ret (some v), 0, set_score st1 key now 0,
          readEvents ++ [Event.write ⟨now, 0⟩, Event.callback, Event.write ⟨now, 0⟩]⟩
  else
    ⟨.ret none, s2, set_score st key now s2, readEvents ++ [Event.write ⟨now, s2⟩]⟩

/-- `Scorekeeper.reset_score`: set the score to `0` and persist immediately. -/
def reset_score (st : Store) (key : String) (now : Nat) : Int × Store :=
  (0, set_score st key now 0)

/-- The wrapped operation produced by the `score` decorator
(`score(scorekeeper_class, points, **kwargs)` applied to a niladic predicate):
run the predicate; if its result is falsy, construct the scorekeeper
(`__init__` refreshes the shared score from the store — one read; the value is
immediately re-read by `__call__`, so only the read event is observable) and
call it with `points` and the configuration overrides; the wrapper itself
returns `None` (any value `__call__` returns is discarded), while an exception
raised by the callback propagates. -/
def score_wrapper (cfg : Config) (key : String) (points : Int)
    (threshold : Option Int) (decay : Option Nat) (callback : Option CbResult)
    (predicateResult : Bool) (st : Store) (now : Nat) :
    Outcome × Store × List Event :=
  if predicateResult then (.ret none, st, [])
  else
    let r := call cfg key st now points threshold decay callback
    match r.outcome with
    | .raised m => (.raised m, r.store, Event.read :: r.events)
    | .ret _ => (.ret none, r.store, Event.read :: r.events)

/-- A `Scorekeeper` (sub)class object, as far as state keying is concerned:
its identity as a Python object and its `__name__`.  Two distinct classes may
share a `__name__`. -/
structure SKClass where
  id : Nat
  name : String
deriving DecidableEq, Repr

/-- The in-process Borg registry of `_ScorekeeperSharedState`:
`_shared_state` maps the class *object* (`type(self)`) to the shared
`__dict__`; here only the shared `score` slot is modelled. -/
def Registry : Type := SKClass → Option Int

/-- `Scorekeeper.__init__` for class `c`: attach to the shared state keyed by
the class object (`_shared_state.setdefault(type(self), {})`), then
`self.score = self._get_score()[1]` — the shared slot is set from the store
record keyed by the class *name*.  Returns the loaded score and the updated
registry. -/
def construct (reg : Registry) (c : SKClass) (st : Store) : Int × Registry :=
  let s := (get_score st c.name).2
  (s, fun c2 => if c2 = c then some s else reg c2)

/-- Reading back the key just written by `_set_score` yields the record just
written. -/
theorem set_score_read (st : Store) (key : String) (now : Nat) (s : Int) :
    (set_score st key now s) key = some ⟨now, s⟩ := by
  simp [set_score, Store.write]

/-- Case analysis of `__call__`, threshold not exceeded: the call returns
`None`, keeps the cumulative score, writes it once, and performs one store
read (two when decay is active). -/
theorem call_cases_low (cfg : Config) (key : String) (st : Store) (now : Nat)
    (points : Int) (th : Option Int) (dk : Option Nat) (cb : Option CbResult)
    (h : ¬ pre_reset cfg key st now points dk > resolveThreshold cfg th) :
    call cfg key st now points th dk cb =
      ⟨.ret none, pre_reset cfg key st now points dk,
        set_score st key now (pre_reset cfg key st now points dk),
        (if truthyNat (resolveDecay cfg dk) then [Event.read, Event.read]
          else [Event.read])
          ++ [Event.write ⟨now, pre_reset cfg key st now points dk⟩]⟩ := by
  simp only [call]
  rw [if_neg h]

/-- Case analysis of `__call__`, threshold exceeded with a raising resolved
callback: score is reset to `0` and persisted before the callback runs, the
exception propagates, and the final `_set_score` is never reached. -/
theorem call_cases_raises (cfg : Config) (key : String) (st : Store)
    (now : Nat) (points : Int) (th : Option Int) (dk : Option Nat)
    (cb : Option CbResult) (m : String)
    (h : pre_reset cfg key st now points dk > resolveThreshold cfg th)
    (hc : resolveCallback cb = .raises m) :
    call cfg key st now points th dk cb =
      ⟨.raised m, 0, set_score st key now 0,
        (if truthyNat (resolveDecay cfg dk) then [Event.read, Event.read]
          else [Event.read])
          ++ [Event.write ⟨now, 0⟩, Event.callback]⟩ := by
  simp only [call]
  rw [if_pos h, hc]

/-- Case analysis of `__call__`, threshold exceeded with a normally returning
resolved callback: score is reset to `0` and persisted, the callback runs,
then the final `_set_score` persists `0` again. -/
theorem call_cases_returns (cfg : Config) (key : String) (st : Store)
    (now : Nat) (points : Int) (th : Option Int) (dk : Option Nat)
    (cb : Option CbResult) (v : Int)
    (h : pre_reset cfg key st now points dk > resolveThreshold cfg th)
    (hc : resolveCallback cb = .returns v) :
    call cfg key st now points th dk cb =
      ⟨.ret (some v), 0, set_score (set_score st key now 0) key now 0,
        (if truthyNat (resolveDecay cfg dk) then [Event.read, Event.read]
          else [Event.read])
          ++ [Event.write ⟨now, 0⟩, Event.callback, Event.write ⟨now, 0⟩]⟩ := by
  simp only [call]
  rw [if_pos h, hc]

/-- C1. The decay computation does not use the full elapsed seconds: with a
stored score of 20 persisted at time 0, decay rate 5, and an `apply(0)` call
exactly 86400 seconds (one day) later, `_seconds_since_last_score` returns the
seconds-of-day component `0` and the score stays 20, whereas the claimed
formula `max(0, S - floor(T / D))` with the full elapsed `T = 86400` yields
`max(0, 20 - 17280) = 0`. -/
theorem C1_decay_drops_whole_days :
    (call baseConfig "Scorekeeper" (singleStore "Scorekeeper" ⟨0, 20⟩) 86400 0
        none (some 5) none).score = 20
    ∧ seconds_since_last_score (singleStore "Scorekeeper" ⟨0, 20⟩)
        "Scorekeeper" 86400 = 0
    ∧ max 0 ((20 : Int) - Int.ofNat (86400 / 5)) = 0 := by
  refine ⟨by decide, by decide, by decide⟩

/-- C2 counterexample. Applying `-5` points to a fresh accumulator (stored
score 0) leaves both the in-memory score and the persisted score at `-5`,
which is negative: the non-negativity invariant fails for negative `points`. -/
theorem C2_counterexample :
    (call baseConfig "Scorekeeper" emptyStore 0 (-5) none none none).score = -5
    ∧ ¬ (0 ≤ (call baseConfig "Scorekeeper" emptyStore 0 (-5) none none none).score)
    ∧ (get_score (call baseConfig "Scorekeeper" emptyStore 0 (-5) none none
        none).store "Scorekeeper").2 = -5 := by
  refine ⟨by decide, by decide, by decide⟩

/-- C2 amended. If the stored score is non-negative and the points argument is
non-negative, then after any `apply` call the in-memory score is non-negative
and every record written to the Store during the call has a non-negative
score.  (With negative points the invariant fails, see the counterexample.) -/
theorem C2_nonneg_invariant (cfg : Config) (key : String) (st : Store)
    (now : Nat) (points : Int) (th : Option Int) (dk : Option Nat)
    (cb : Option CbResult)
    (hst : 0 ≤ (get_score st key).2) (hp : 0 ≤ points) :
    0 ≤ (call cfg key st now points th dk cb).score
    ∧ (call cfg key st now points th dk cb).events.all Event.nonnegWrite = true := by
  have hpd : 0 ≤ post_decay cfg key st now dk := by
    unfold post_decay
    cases resolveDecay cfg dk with
    | none => exact hst
    | some r =>
        dsimp only
        split
        · unfold decay_step
          exact le_max_left 0 _
        · exact hst
  have hs2 : 0 ≤ pre_reset cfg key st now points dk := by
    unfold pre_reset
    exact add_nonneg hpd hp
  by_cases h : pre_reset cfg key st now points dk > resolveThreshold cfg th
  · cases hc : resolveCallback cb with
    | raises m =>
        have e := call_cases_raises cfg key st now points th dk cb m h hc
        rw [e]
        cases hb : truthyNat (resolveDecay cfg dk) <;>
          simp [Event.nonnegWrite]
    | returns v =>
        have e := call_cases_returns cfg key st now points th dk cb v h hc
        rw [e]
        cases hb : truthyNat (resolveDecay cfg dk) <;>
          simp [Event.nonnegWrite]
  · have e := call_cases_low cfg key st now points th dk cb h
    rw [e]
    cases hb : truthyNat (resolveDecay cfg dk) <;>
      simp [Event.nonnegWrite, hs2]

/-- C2 amended, witness: starting from a stored score of 3 and applying 4
points, the resulting score is non-negative and all writes are non-negative. -/
theorem C2_nonneg_invariant_witness :
    0 ≤ (call baseConfig "Scorekeeper" (singleStore "Scorekeeper" ⟨0, 3⟩) 9 4
        none none none).score
    ∧ (call baseConfig "Scorekeeper" (singleStore "Scorekeeper" ⟨0, 3⟩) 9 4
        none none none).events.all Event.nonnegWrite = true :=
  C2_nonneg_invariant baseConfig "Scorekeeper"
    (singleStore "Scorekeeper" ⟨0, 3⟩) 9 4 none none none (by decide) (by decide)

/-- C3. On every `apply` call the callback is invoked exactly once when the
post-decay, post-addition score strictly exceeds the effective threshold and
is not invoked otherwise; and whenever it exceeds the threshold, the
in-memory score is 0 when control leaves the call. -/
theorem C3_threshold_crossing (cfg : Config) (key : String) (st : Store)
    (now : Nat) (points : Int) (th : Option Int) (dk : Option Nat)
    (cb : Option CbResult) :
    ((call cfg key st now points th dk cb).events.filter Event.isCallback).length
      = (if pre_reset cfg key st now points dk > resolveThreshold cfg th
          then 1 else 0)
    ∧ (pre_reset cfg key st now points dk > resolveThreshold cfg th →
        (call cfg key st now points th dk cb).score = 0) := by
  by_cases h : pre_reset cfg key st now points dk > resolveThreshold cfg th
  · cases hc : resolveCallback cb with
    | raises m =>
        have e := call_cases_raises cfg key st now points th dk cb m h hc
        rw [e]
        cases hb : truthyNat (resolveDecay cfg dk) <;>
          simp [Event.isCallback, h]
    | returns v =>
        have e := call_cases_returns cfg key st now points th dk cb v h hc
        rw [e]
        cases hb : truthyNat (resolveDecay cfg dk) <;>
          simp [Event.isCallback, h]
  · have e := call_cases_low cfg key st now points th dk cb h
    rw [e]
    cases hb : truthyNat (resolveDecay cfg dk) <;>
      simp [Event.isCallback, h]

/-- C3 witness: a fresh accumulator receiving 150 points against the default
threshold 100 fires the callback exactly once and leaves the score at 0. -/
theorem C3_threshold_crossing_witness :
    ((call baseConfig "Scorekeeper" emptyStore 0 150 none none
        none).events.filter Event.isCallback).length
      = (if pre_reset baseConfig "Scorekeeper" emptyStore 0 150 none
            > resolveThreshold baseConfig none then 1 else 0)
    ∧ (pre_reset baseConfig "Scorekeeper" emptyStore 0 150 none
          > resolveThreshold baseConfig none →
        (call baseConfig "Scorekeeper" emptyStore 0 150 none none none).score = 0) :=
  C3_threshold_crossing baseConfig "Scorekeeper" emptyStore 0 150 none none none

/-- C4 counterexample. With the base class default threshold 100, calling
`apply(50, threshold=0)` resolves the threshold to 100 — the explicitly
passed 0 is falsy and does NOT take precedence: the call behaves exactly like
a call with no threshold argument, the callback does not fire (the claim
predicts a crossing since 50 > 0), and the call returns `None` with score 50. -/
theorem C4_counterexample :
    resolveThreshold baseConfig (some 0) = 100
    ∧ call baseConfig "Scorekeeper" emptyStore 0 50 (some 0) none none
        = call baseConfig "Scorekeeper" emptyStore 0 50 none none none
    ∧ ((call baseConfig "Scorekeeper" emptyStore 0 50 (some 0) none
        none).events.filter Event.isCallback).length = 0
    ∧ (call baseConfig "Scorekeeper" emptyStore 0 50 (some 0) none none).outcome
        = .ret none
    ∧ (call baseConfig "Scorekeeper" emptyStore 0 50 (some 0) none none).score = 50 := by
  refine ⟨by decide, rfl, by decide, by decide, by decide⟩

/-- C4 amended. Per-call resolution: an explicitly passed *non-zero* threshold
and non-zero decay take precedence over the per-type defaults — the call
behaves exactly as if they were the configured defaults — and an explicitly
passed callback takes precedence over the default callback; but an explicitly
passed falsy value (`0` for threshold or decay, `None` for any of the three)
falls back to the per-type default (and `None` callback to the global
`default_callback`). -/
theorem C4_resolution (cfg : Config) (key : String) (st : Store) (now : Nat)
    (points : Int) (t : Int) (d : Nat) (c : CbResult) (th : Option Int)
    (dk : Option Nat) (cb : Option CbResult)
    (ht : t ≠ 0) (hd : d ≠ 0) :
    call cfg key st now points (some t) (some d) (some c)
        = call ⟨t, some d⟩ key st now points none none (some c)
    ∧ call cfg key st now points (some 0) (some 0) cb
        = call cfg key st now points none none cb
    ∧ call cfg key st now points th dk none
        = call cfg key st now points th dk (some default_callback) := by
  refine ⟨?_, rfl, rfl⟩
  have ht' : resolveThreshold cfg (some t) = t := by
    simp [resolveThreshold, ht]
  have hd' : resolveDecay cfg (some d) = some d := by
    simp [resolveDecay, hd]
  have ht2 : resolveThreshold ⟨t, some d⟩ none = t := rfl
  have hd2 : resolveDecay ⟨t, some d⟩ none = some d := rfl
  simp only [call, pre_reset, post_decay]
  rw [ht', hd', ht2, hd2]

/-- C4 amended, witness: explicit threshold 7 and decay 3 behave exactly like
per-type defaults 7 and 3; explicit zeros fall back; `None` callback is the
default callback. -/
theorem C4_resolution_witness :
    call baseConfig "Scorekeeper" emptyStore 4 2 (some 7) (some 3)
        (some (.returns 1))
      = call ⟨7, some 3⟩ "Scorekeeper" emptyStore 4 2 none none
          (some (.returns 1))
    ∧ call baseConfig "Scorekeeper" emptyStore 4 2 (some 0) (some 0) none
        = call baseConfig "Scorekeeper" emptyStore 4 2 none none none
    ∧ call baseConfig "Scorekeeper" emptyStore 4 2 none none none
        = call baseConfig "Scorekeeper" emptyStore 4 2 none none
            (some default_callback) :=
  C4_resolution baseConfig "Scorekeeper" emptyStore 4 2 7 3 (.returns 1)
    none none none (by decide) (by decide)

/-- C5. Every `apply` call leaves the Store record for the accumulator's key
equal to the final in-memory score paired with the current timestamp — on
every path, including when the resolved callback raises — and whenever the
threshold was exceeded, the persisted score is 0. -/
theorem C5_persist_final (cfg : Config) (key : String) (st : Store)
    (now : Nat) (points : Int) (th : Option Int) (dk : Option Nat)
    (cb : Option CbResult) :
    (call cfg key st now points th dk cb).store key
        = some ⟨now, (call cfg key st now points th dk cb).score⟩
    ∧ (pre_reset cfg key st now points dk > resolveThreshold cfg th →
        (call cfg key st now points th dk cb).store key = some ⟨now, 0⟩) := by
  by_cases h : pre_reset cfg key st now points dk > resolveThreshold cfg th
  · cases hc : resolveCallback cb with
    | raises m =>
        have e := call_cases_raises cfg key st now points th dk cb m h hc
        rw [e]
        exact ⟨set_score_read st key now 0, fun _ => set_score_read st key now 0⟩
    | returns v =>
        have e := call_cases_returns cfg key st now points th dk cb v h hc
        rw [e]
        exact ⟨set_score_read _ key now 0, fun _ => set_score_read _ key now 0⟩
  · have e := call_cases_low cfg key st now points th dk cb h
    rw [e]
    exact ⟨set_score_read st key now _, fun hc => absurd hc h⟩

/-- C5 witness: after a crossing with the (raising) default callback on a
fresh accumulator at time 5, the durable record holds score 0 at timestamp 5,
which is also the final in-memory score. -/
theorem C5_persist_final_witness :
    (call baseConfig "Scorekeeper" emptyStore 5 150 none none none).store
        "Scorekeeper"
      = some ⟨5, (call baseConfig "Scorekeeper" emptyStore 5 150 none none
          none).score⟩
    ∧ (call baseConfig "Scorekeeper" emptyStore 5 150 none none none).store
        "Scorekeeper" = some ⟨5, 0⟩ :=
  ⟨(C5_persist_final baseConfig "Scorekeeper" emptyStore 5 150 none none none).1,
   (C5_persist_final baseConfig "Scorekeeper" emptyStore 5 150 none none none).2
     (by decide)⟩

/-- C6 counterexample. With decay configured, an `apply` call reads the Store
twice (once at the top of `__call__` and once inside
`_seconds_since_last_score`), and with a threshold crossing and a normally
returning callback, it writes the Store twice (once in `reset_score` and once
in the final `_set_score`) — refuting "exactly one read and exactly one
write". -/
theorem C6_counterexample :
    ((call baseConfig "Scorekeeper" (singleStore "Scorekeeper" ⟨0, 10⟩) 7 0
        none (some 5) none).events.filter Event.isRead).length = 2
    ∧ ((call baseConfig "Scorekeeper" emptyStore 0 150 none none
        (some (.returns 1))).events.filter Event.isWrite).length = 2 := by
  refine ⟨by decide, by decide⟩

/-- C6 amended. Every `apply` call performs exactly one Store read when no
decay is active and exactly two when decay is active; and exactly one Store
write, except that a threshold crossing whose resolved callback returns
normally performs a second write (when the callback raises, exactly the one
write of `reset_score` happens). -/
theorem C6_io_counts (cfg : Config) (key : String) (st : Store) (now : Nat)
    (points : Int) (th : Option Int) (dk : Option Nat) (cb : Option CbResult) :
    ((call cfg key st now points th dk cb).events.filter Event.isRead).length
      = (if truthyNat (resolveDecay cfg dk) then 2 else 1)
    ∧ ((call cfg key st now points th dk cb).events.filter Event.isWrite).length
      = (if pre_reset cfg key st now points dk > resolveThreshold cfg th
            ∧ (resolveCallback cb).isReturns = true
          then 2 else 1) := by
  by_cases h : pre_reset cfg key st now points dk > resolveThreshold cfg th
  · cases hc : resolveCallback cb with
    | raises m =>
        have e := call_cases_raises cfg key st now points th dk cb m h hc
        rw [e]
        cases hb : truthyNat (resolveDecay cfg dk) <;>
          simp [hb, Event.isRead, Event.isWrite, CbResult.isReturns, h]
    | returns v =>
        have e := call_cases_returns cfg key st now points th dk cb v h hc
        rw [e]
        cases hb : truthyNat (resolveDecay cfg dk) <;>
          simp [hb, Event.isRead, Event.isWrite, CbResult.isReturns, h]
  · have e := call_cases_low cfg key st now points th dk cb h
    rw [e]
    cases hb : truthyNat (resolveDecay cfg dk) <;>
      simp [hb, Event.isRead, Event.isWrite, h]

/-- C7 counterexample. For a subclass with `default_decay = 5`, a stored
score of 10 persisted at time 0, and an `apply(0, decay=0)` call at time 10:
the explicit decay of 0 is falsy, falls back to the default decay 5, and a
decay step IS performed — the score the points are added to is 8, not the
stored 10 the claim requires. -/
theorem C7_counterexample :
    (call ⟨100, some 5⟩ "Scorekeeper" (singleStore "Scorekeeper" ⟨0, 10⟩) 10 0
        none (some 0) none).score = 8
    ∧ (get_score (singleStore "Scorekeeper" ⟨0, 10⟩) "Scorekeeper").2 = 10 := by
  refine ⟨by decide, by decide⟩

/-- C7 amended. No decay step is performed exactly when the *resolved* decay
is falsy (`None` or 0): in that case the score the new points are added to is
the stored score unchanged, regardless of elapsed time.  An explicitly passed
decay of 0 does not itself suppress decay — being falsy, it falls back to the
per-type default decay, so decay is suppressed only when that default is also
`None` or 0. -/
theorem C7_no_decay (cfg : Config) (key : String) (st : Store) (now : Nat)
    (points : Int) (dk : Option Nat)
    (h : truthyNat (resolveDecay cfg dk) = false) :
    post_decay cfg key st now dk = (get_score st key).2
    ∧ pre_reset cfg key st now points dk = (get_score st key).2 + points
    ∧ resolveDecay cfg (some 0) = cfg.default_decay := by
  have hpd : post_decay cfg key st now dk = (get_score st key).2 := by
    unfold post_decay
    cases hr : resolveDecay cfg dk with
    | none => rfl
    | some r =>
        rw [hr] at h
        simp only [truthyNat] at h
        simp [bne_eq_false_iff_eq.mp h]
  exact ⟨hpd, by unfold pre_reset; rw [hpd], rfl⟩

/-- C7 amended, witness: with no default decay and no decay argument, a
stored score of 10 with 12 seconds elapsed is not decayed — points are added
to the stored score unchanged. -/
theorem C7_no_decay_witness :
    post_decay baseConfig "Scorekeeper" (singleStore "Scorekeeper" ⟨0, 10⟩) 12
        none = (get_score (singleStore "Scorekeeper" ⟨0, 10⟩) "Scorekeeper").2
    ∧ pre_reset baseConfig "Scorekeeper" (singleStore "Scorekeeper" ⟨0, 10⟩) 12
        3 none
      = (get_score (singleStore "Scorekeeper" ⟨0, 10⟩) "Scorekeeper").2 + 3
    ∧ resolveDecay baseConfig (some 0) = baseConfig.default_decay :=
  C7_no_decay baseConfig "Scorekeeper" (singleStore "Scorekeeper" ⟨0, 10⟩) 12 3
    none (by decide)

/-- C8. The wrapped operation produced by the `score` decorator: on a truthy
predicate result it does nothing (returns `None`, store untouched, no I/O);
on a falsy predicate result it constructs the shared accumulator and calls
`apply(points, **kwargs)` — the resulting store and the scoring I/O trace are
exactly those of the `apply` call (plus the construction's read) — and its
own return value is never an actual value: it returns `None` (while an
exception raised by the resolved callback propagates). -/
theorem C8_wrapper (cfg : Config) (key : String) (points : Int)
    (th : Option Int) (dk : Option Nat) (cb : Option CbResult) (st : Store)
    (now : Nat) :
    score_wrapper cfg key points th dk cb true st now = (.ret none, st, [])
    ∧ (score_wrapper cfg key points th dk cb false st now).2.1
        = (call cfg key st now points th dk cb).store
    ∧ (score_wrapper cfg key points th dk cb false st now).2.2
        = Event.read :: (call cfg key st now points th dk cb).events
    ∧ ((score_wrapper cfg key points th dk cb false st now).1).isSomeRet = false := by
  refine ⟨rfl, ?_, ?_, ?_⟩ <;>
    · simp only [score_wrapper]
      cases hc : (call cfg key st now points th dk cb).outcome <;>
        simp [hc, Outcome.isSomeRet]

/-- C9. Persistence is keyed by the class *name* while the in-process Borg
registry is keyed by the class *object*: for two distinct classes sharing a
name, a record written under the first class's key is read back under the
second class's key (one shared durable record), yet constructing an
accumulator of the first class creates/updates only its own registry handle,
leaving the second class's handle untouched (separate in-memory states). -/
theorem C9_identity_keys (st : Store) (reg : Registry) (r : ScoreRecord)
    (c1 c2 : SKClass) (hne : c1 ≠ c2) (hname : c1.name = c2.name) :
    get_score (Store.write st c1.name r) c2.name = (some r.datetime, r.score)
    ∧ (construct reg c1 st).2 c2 = reg c2
    ∧ (construct reg c1 st).2 c1 = some ((get_score st c1.name).2) := by
  refine ⟨?_, ?_, ?_⟩
  · simp [get_score, Store.write, hname]
  · simp [construct, Ne.symm hne]
  · simp [construct]

/-- C9 witness: two distinct class objects both named "A"; a record written
via the first is read back via the second, while constructing the first
leaves the second's registry slot empty and fills only its own. -/
theorem C9_identity_keys_witness :
    get_score (Store.write emptyStore (SKClass.mk 0 "A").name ⟨3, 7⟩)
        (SKClass.mk 1 "A").name = (some 3, 7)
    ∧ (construct (fun _ => none) (SKClass.mk 0 "A") emptyStore).2
        (SKClass.mk 1 "A") = (fun _ => none : Registry) (SKClass.mk 1 "A")
    ∧ (construct (fun _ => none) (SKClass.mk 0 "A") emptyStore).2
        (SKClass.mk 0 "A")
      = some ((get_score emptyStore (SKClass.mk 0 "A").name).2) :=
  C9_identity_keys emptyStore (fun _ => none) ⟨3, 7⟩ (SKClass.mk 0 "A")
    (SKClass.mk 1 "A") (by decide) (by decide)

/-- C10. On a threshold crossing with a raising resolved callback (as the
default callback is), the event trace is: the read(s), then the write of
`{now, 0}` performed by `reset_score`, then the callback invocation — so 0 is
persisted *before* the callback runs — and when the exception propagates both
the in-memory score and the durable record already hold 0. -/
theorem C10_reset_before_callback (cfg : Config) (key : String) (st : Store)
    (now : Nat) (points : Int) (th : Option Int) (dk : Option Nat)
    (cb : Option CbResult) (m : String)
    (h : pre_reset cfg key st now points dk > resolveThreshold cfg th)
    (hc : resolveCallback cb = .raises m) :
    (call cfg key st now points th dk cb).events
      = (if truthyNat (resolveDecay cfg dk) then [Event.read, Event.read]
          else [Event.read]) ++ [Event.write ⟨now, 0⟩, Event.callback]
    ∧ (call cfg key st now points th dk cb).score = 0
    ∧ (call cfg key st now points th dk cb).store key = some ⟨now, 0⟩
    ∧ (call cfg key st now points th dk cb).outcome = .raised m := by
  have e := call_cases_raises cfg key st now points th dk cb m h hc
  rw [e]
  exact ⟨rfl, rfl, set_score_read st key now 0, rfl⟩

/-- C10 witness: a fresh accumulator at time 4, `apply(150)` against the
default threshold 100 with the default (raising) callback — one read, then
the write of 0, then the callback; score and durable record are 0 and the
`ScoreExceededError` propagates. -/
theorem C10_reset_before_callback_witness :
    (call baseConfig "Scorekeeper" emptyStore 4 150 none none none).events
      = (if truthyNat (resolveDecay baseConfig none) then
          [Event.read, Event.read] else [Event.read])
        ++ [Event.write ⟨4, 0⟩, Event.callback]
    ∧ (call baseConfig "Scorekeeper" emptyStore 4 150 none none none).score = 0
    ∧ (call baseConfig "Scorekeeper" emptyStore 4 150 none none none).store
        "Scorekeeper" = some ⟨4, 0⟩
    ∧ (call baseConfig "Scorekeeper" emptyStore 4 150 none none none).outcome
        = .raised "Score has been exceeded!" :=
  C10_reset_before_callback baseConfig "Scorekeeper" emptyStore 4 150 none none
    none "Score has been exceeded!" (by decide) (by decide)

end Scorekeeper
